import Mathlib

/-!
# Shallow embedding of the WebGL geometry/shader core

This file embeds the three core modules of the repository
(`gop/core/BufferGeometry.js`, `gop/core/ShaderHelper.js`,
`gop/core/WebGLProgram.js`) as executable Lean definitions and proves
properties of them.

Modelling conventions:
* A WebGL context is a record of an identity plus the capability surface the
  code actually consults (`getParameter` presence, `createBuffer` presence,
  compile/link outcomes, uniform introspection).  Calls the code issues
  against the context are recorded in an event trace (`GLCall`,
  `UniformCall`).
* JS numbers are modelled as exact rationals (`Rat`); no claim under
  scrutiny depends on floating-point rounding.  The float division
  `array.length / itemSize` is modelled as the exact rational `mkRat`.
* A JS method that `throw`s is modelled by returning the mutated receiver
  and state together with `some` error, mirroring that JS exceptions
  propagate while in-place mutations performed before the `throw` persist.
* `Float32Array.from` / `Uint16Array.from` conversions store the raw
  uploaded sequence in the trace event; no claim inspects the converted
  bytes.
* `console.error` logging (a pure diagnostic) is not traced;
  `console.warn` in `setUniform` is traced, since claims refer to the
  warning path.
-/

/-- Buffer binding targets used by the code (`gl.ARRAY_BUFFER`,
`gl.ELEMENT_ARRAY_BUFFER`). -/
inductive BufferTarget where
  | ARRAY_BUFFER
  | ELEMENT_ARRAY_BUFFER
deriving DecidableEq, Repr

/-- The only primitive topology the code ever draws (`gl.TRIANGLES`). -/
inductive PrimMode where
  | TRIANGLES
deriving DecidableEq, Repr

/-- The only index width the code ever draws with (`gl.UNSIGNED_SHORT`). -/
inductive IndexKind where
  | UNSIGNED_SHORT
deriving DecidableEq, Repr

/-- Errors raised by the embedded code.

* `invalidContext` — the `throw new Error(... context ... is not valid!)`
  sites in `BufferGeometry.init` and the `WebGLProgram` constructor;
* `inconsistentAttributeCount` — the
  `throw new Error('All attributes must have the same count')` site;
* `notInitialized` — the `throw` in `BufferGeometry.draw` when no context
  was ever supplied;
* `typeError m` — the JS `TypeError` raised when the code dereferences a
  missing member `m` (e.g. calling `gl.createBuffer` on a context that
  lacks it, or calling a dynamically-named `gl.uniform0fv`). -/
inductive GLError where
  | invalidContext
  | inconsistentAttributeCount
  | notInitialized
  | typeError (member : String)
deriving DecidableEq, Repr

/-- One call issued against the WebGL context.  The first `Nat` of every
constructor is the identity of the context the call was issued on. -/
inductive GLCall where
  | createBuffer (ctx : Nat) (buffer : Nat)
  | bindBuffer (ctx : Nat) (target : BufferTarget) (buffer : Option Nat)
  | bufferData (ctx : Nat) (target : BufferTarget) (data : List Rat)
  | enableVertexAttribArray (ctx : Nat) (location : Nat)
  | vertexAttribPointer (ctx : Nat) (location : Nat) (itemSize : Nat) (normalize : Bool)
  | disableVertexAttribArray (ctx : Nat) (location : Nat)
  | drawArrays (ctx : Nat) (mode : PrimMode) (first : Nat) (count : Option Rat)
  | drawElements (ctx : Nat) (mode : PrimMode) (count : Option Nat) (kind : IndexKind)
  | createShader (ctx : Nat) (shader : Nat) (kind : Option String)
  | shaderSource (ctx : Nat) (shader : Nat) (src : String)
  | compileShader (ctx : Nat) (shader : Nat)
  | deleteShader (ctx : Nat) (shader : Option Nat)
  | createProgram (ctx : Nat) (program : Nat)
  | attachShader (ctx : Nat) (program : Nat) (shader : Option Nat)
  | linkProgram (ctx : Nat) (program : Nat)
  | deleteProgram (ctx : Nat) (program : Nat)
deriving DecidableEq, Repr

/-- Is this event one of the two draw-dispatch calls
(`gl.drawArrays` / `gl.drawElements`)? -/
def GLCall.isDrawCall : GLCall → Bool
  | .drawArrays .. => true
  | .drawElements .. => true
  | _ => false

/-- Is this event a buffer allocation/upload (`gl.createBuffer` /
`gl.bufferData`)? -/
def GLCall.isAllocation : GLCall → Bool
  | .createBuffer .. => true
  | .bufferData .. => true
  | _ => false

/-- Is this event a `gl.attachShader` call? -/
def GLCall.isAttachCall : GLCall → Bool
  | .attachShader .. => true
  | _ => false

/-- The identity of the context an event was issued on. -/
def GLCall.ctxOf : GLCall → Nat
  | .createBuffer c _ => c
  | .bindBuffer c _ _ => c
  | .bufferData c _ _ => c
  | .enableVertexAttribArray c _ => c
  | .vertexAttribPointer c _ _ _ => c
  | .disableVertexAttribArray c _ => c
  | .drawArrays c _ _ _ => c
  | .drawElements c _ _ _ => c
  | .createShader c _ _ => c
  | .shaderSource c _ _ => c
  | .compileShader c _ => c
  | .deleteShader c _ => c
  | .createProgram c _ => c
  | .attachShader c _ _ => c
  | .linkProgram c _ => c
  | .deleteProgram c _ => c

/-- The WebGL context as the code consumes it: an identity, the capability
members the code tests for or may trip over, and the outcome of the
context-side operations the code branches on (compile status, link status,
uniform location lookup, and the `length` of `getUniform`'s result —
`none` when the returned value has no `length` property, e.g. for scalar
uniforms). -/
structure GLContext where
  id : Nat
  hasGetParameter : Bool
  hasCreateBuffer : Bool
  compileOk : String → Bool
  linkOk : Bool
  uniformLoc : String → Option Nat
  uniformLen : Nat → Option Nat

/-- Mutable world state threaded through the embedding: a fresh-handle
counter for objects the context creates, and the trace of issued calls. -/
structure GLState where
  nextHandle : Nat
  trace : List GLCall

/-- One vertex attribute
(`{ array, itemSize, normalize?, buffer?, count? }` in the JS object);
`buffer` and `count` are unset until `init` populates them. -/
structure Attribute where
  array : List Rat
  itemSize : Nat
  normalize : Bool := false
  buffer : Option Nat := none
  count : Option Rat := none
deriving DecidableEq, Repr

/-- The optional index list (`{ array, itemSize: 1, buffer?, count? }`). -/
structure IndexList where
  array : List Rat
  itemSize : Nat := 1
  buffer : Option Nat := none
  count : Option Nat := none
deriving DecidableEq, Repr

/-- The geometry object.  `attributes` is the JS string-keyed object,
modelled as an insertion-ordered association list (for-in over a JS object
with non-numeric keys iterates in insertion order). -/
structure BufferGeometry where
  name : String := ""
  type : String := "BufferGeometry"
  index : Option IndexList := none
  attributes : List (String × Attribute) := []
  gl : Option GLContext := none
  isInitialized : Bool := false

/-- `getAttribLocation` of BufferGeometry.js: the fixed attribute-name →
shader-location table; unknown names (including the explicit `index`
case) give `undefined`, modelled as `none`. -/
def getAttribLocation (name : String) : Option Nat :=
  match name with
  | "position" => some 0
  | "color" => some 1
  | "normal" => some 1
  | "uv" => some 2
  | _ => none

/-- `createBuffer` of BufferGeometry.js: create a buffer, bind it to
`ARRAY_BUFFER`, upload the data as 32-bit floats.  Calling it on a context
without a `createBuffer` member is the JS `TypeError` at
`gl.createBuffer()`. -/
def createBuffer (gl : GLContext) (arrayData : List Rat) (s : GLState) :
    Except GLError (Nat × GLState) :=
  if gl.hasCreateBuffer then
    let buffer := s.nextHandle
    .ok (buffer,
      { nextHandle := s.nextHandle + 1,
        trace := s.trace ++
          [GLCall.createBuffer gl.id buffer,
           GLCall.bindBuffer gl.id .ARRAY_BUFFER (some buffer),
           GLCall.bufferData gl.id .ARRAY_BUFFER arrayData] })
  else
    .error (.typeError "createBuffer")

/-- `createIndex` of BufferGeometry.js: create a buffer, bind it to
`ELEMENT_ARRAY_BUFFER`, upload the indices as 16-bit unsigned integers. -/
def createIndex (gl : GLContext) (indices : List Rat) (s : GLState) :
    Except GLError (Nat × GLState) :=
  if gl.hasCreateBuffer then
    let indexBuffer := s.nextHandle
    .ok (indexBuffer,
      { nextHandle := s.nextHandle + 1,
        trace := s.trace ++
          [GLCall.createBuffer gl.id indexBuffer,
           GLCall.bindBuffer gl.id .ELEMENT_ARRAY_BUFFER (some indexBuffer),
           GLCall.bufferData gl.id .ELEMENT_ARRAY_BUFFER indices] })
  else
    .error (.typeError "createBuffer")

/-- `useBuffer` of BufferGeometry.js: bind the attribute buffer, enable
its vertex-input slot, set the pointer, rebind `ARRAY_BUFFER` to null. -/
def useBuffer (gl : GLContext) (buffer : Option Nat) (itemSize : Nat)
    (location : Nat) (normalize : Bool) : List GLCall :=
  [GLCall.bindBuffer gl.id .ARRAY_BUFFER buffer,
   GLCall.enableVertexAttribArray gl.id location,
   GLCall.vertexAttribPointer gl.id location itemSize normalize,
   GLCall.bindBuffer gl.id .ARRAY_BUFFER none]

/-- `disableBuffer` of BufferGeometry.js. -/
def disableBuffer (gl : GLContext) (location : Nat) : List GLCall :=
  [GLCall.disableVertexAttribArray gl.id location]

/-- The element count `init` records for an attribute:
`attribute.array.length / attribute.itemSize` (JS float division, modelled
as the exact rational). -/
def attrCountOf (a : Attribute) : Rat :=
  mkRat a.array.length a.itemSize

/-- The first for-in loop of `BufferGeometry.init`: for every attribute in
order, create+fill its buffer and record its `count`; the running
`attrCount` variable is overwritten each iteration, so the returned value
is the count of the last attribute (or the initial `0` when there are
none). -/
def uploadAttributes (gl : GLContext) :
    List (String × Attribute) → Rat → GLState →
    Except GLError (List (String × Attribute) × Rat × GLState)
  | [], attrCount, s => .ok ([], attrCount, s)
  | (key, attrib) :: rest, _, s =>
    match createBuffer gl attrib.array s with
    | .error e => .error e
    | .ok (buf, s1) =>
      let count := attrCountOf attrib
      let attrib := { attrib with buffer := some buf, count := some count }
      match uploadAttributes gl rest count s1 with
      | .error e => .error e
      | .ok (restOut, attrCountOut, s2) =>
        .ok ((key, attrib) :: restOut, attrCountOut, s2)

/-- The second for-in loop of `BufferGeometry.init`: does some attribute
have `count !== attrCount`? -/
def findMismatch (attrs : List (String × Attribute)) (attrCount : Rat) : Bool :=
  attrs.any fun ka => ka.2.count != some attrCount

/-- `BufferGeometry.init`.  Returns the (possibly mutated) geometry, the
world state, and `some e` when the JS code `throw`s `e`.  Mirrors the
source exactly: no-op when already initialized; `getParameter` presence
check; upload every attribute; validate equal counts; upload the index if
present; only then set `isInitialized`. -/
def BufferGeometry.init (g : BufferGeometry) (gl0 : GLContext) (s : GLState) :
    BufferGeometry × GLState × Option GLError :=
  if g.isInitialized = false then
    if gl0.hasGetParameter = false then
      (g, s, some .invalidContext)
    else
      match uploadAttributes gl0 g.attributes 0 s with
      | .error e => ({ g with gl := some gl0 }, s, some e)
      | .ok (attrs, attrCount, s1) =>
        if findMismatch attrs attrCount then
          ({ g with gl := some gl0, attributes := attrs }, s1,
           some .inconsistentAttributeCount)
        else
          match g.index with
          | some idx =>
            (match createIndex gl0 idx.array s1 with
             | .error e =>
               ({ g with gl := some gl0, attributes := attrs }, s1, some e)
             | .ok (buf, s2) =>
               ({ g with
                   gl := some gl0,
                   attributes := attrs,
                   index := some { idx with
                                    buffer := some buf,
                                    count := some idx.array.length },
                   isInitialized := true }, s2, none))
          | none =>
            ({ g with
                gl := some gl0,
                attributes := attrs,
                isInitialized := true }, s1, none)
  else
    (g, s, none)

/-- `BufferGeometry.draw`.  If a context argument is supplied (non-null),
first calls `init` with it (an exception from `init` propagates); then
fails `notInitialized` if never initialized; then binds every attribute,
issues exactly one draw call (indexed when an index is present, else
`drawArrays` over the `position` attribute's count — a missing `position`
attribute is the JS `TypeError` at `.count`, raised after the binds),
and disables every attribute's slot. -/
def BufferGeometry.draw (g0 : BufferGeometry) (glArg : Option GLContext)
    (s0 : GLState) : BufferGeometry × GLState × Option GLError :=
  let r :=
    match glArg with
    | some c => g0.init c s0
    | none => (g0, s0, none)
  match r with
  | (g, s, some err) => (g, s, some err)
  | (g, s, none) =>
    if g.isInitialized = false then
      (g, s, some .notInitialized)
    else
      match g.gl with
      | none => (g, s, some (.typeError "gl"))
      | some gl =>
        let bindEvents := g.attributes.flatMap fun ka =>
          useBuffer gl ka.2.buffer ka.2.itemSize
            ((getAttribLocation ka.1).getD 0) ka.2.normalize
        let disableEvents := g.attributes.flatMap fun ka =>
          disableBuffer gl ((getAttribLocation ka.1).getD 0)
        match g.index with
        | some idx =>
          (g, { s with trace := s.trace ++ bindEvents ++
                  [GLCall.bindBuffer gl.id .ELEMENT_ARRAY_BUFFER idx.buffer,
                   GLCall.drawElements gl.id .TRIANGLES idx.count .UNSIGNED_SHORT] ++
                  disableEvents }, none)
        | none =>
          match g.attributes.lookup "position" with
          | none =>
            (g, { s with trace := s.trace ++ bindEvents },
             some (.typeError "count"))
          | some attrib =>
            (g, { s with trace := s.trace ++ bindEvents ++
                    [GLCall.drawArrays gl.id .TRIANGLES 0 attrib.count] ++
                    disableEvents }, none)

/-- `hasIndex` getter: `this.index !== null`. -/
def BufferGeometry.hasIndex (g : BufferGeometry) : Bool :=
  g.index.isSome

/-- An element of the `shaders` argument of `createProgram`
(ShaderHelper.js): either an already compiled `WebGLShader` object or a
string (a DOM element id, or raw source text). -/
inductive ShaderArg where
  | handle (shader : Nat)
  | src (text : String)
deriving DecidableEq, Repr

/-- Is this `shaders` element a string (`typeof shader === 'string'`)? -/
def ShaderArg.isString : ShaderArg → Bool
  | .src _ => true
  | .handle _ => false

/-- `defaultShaderType` of ShaderHelper.js: the fixed positional stage
ordering. -/
def defaultShaderType : List String :=
  ["VERTEX_SHADER", "FRAGMENT_SHADER"]

/-- `loadShader` of ShaderHelper.js: create a stage object, set its
source, compile, check the compile status; on failure delete the stage
and return null (`none`).  The `shaderTypeString` parameter only feeds the
(untraced) diagnostic log and is omitted. -/
def loadShader (gl : GLContext) (shaderSrc : String) (shaderType : Option String)
    (s : GLState) : Option Nat × GLState :=
  let shader := s.nextHandle
  let s1 : GLState :=
    { nextHandle := s.nextHandle + 1,
      trace := s.trace ++
        [GLCall.createShader gl.id shader shaderType,
         GLCall.shaderSource gl.id shader shaderSrc,
         GLCall.compileShader gl.id shader] }
  let compiled := gl.compileOk shaderSrc
  if compiled = false then
    (none, { s1 with trace := s1.trace ++ [GLCall.deleteShader gl.id (some shader)] })
  else
    (some shader, s1)

/-- `deleteShaders` of ShaderHelper.js: delete every element of the list
(`gl.deleteShader(null)` is a silent no-op call, still issued). -/
def deleteShaders (gl : GLContext) (shaders : List (Option Nat)) : List GLCall :=
  shaders.map fun shader => GLCall.deleteShader gl.id shader

/-- The indexed for-loop of `createProgram`: each element that is a string
is resolved against the DOM (`document.getElementById`; `doc` is that
environment — `doc id = some text` when an element with that id exists),
compiled with the stage kind `gl[defaultShaderType[ndx]]`, and its result
is pushed onto `realShaders` (note: pushed even when compilation returned
null).  Elements that are not strings are *not* pushed. -/
def collectRealShaders (gl : GLContext) (doc : String → Option String) :
    List ShaderArg → Nat → GLState → List (Option Nat) × GLState
  | [], _, s => ([], s)
  | arg :: rest, ndx, s =>
    match arg with
    | .src str =>
      let srcText := (doc str).getD str
      let shaderType := defaultShaderType.get? ndx
      let (shader, s1) := loadShader gl srcText shaderType s
      let (others, s2) := collectRealShaders gl doc rest (ndx + 1) s1
      (shader :: others, s2)
    | .handle _ =>
      collectRealShaders gl doc rest (ndx + 1) s

/-- `createProgram` of ShaderHelper.js: compile the string elements of
`shaders` into `realShaders`, create a program object, attach every
element of `realShaders`, link, check the link status; on link failure
delete the program and all of `realShaders` and return null. -/
def createProgram (gl : GLContext) (shaders : List ShaderArg)
    (doc : String → Option String) (s : GLState) : Option Nat × GLState :=
  let (realShaders, s1) := collectRealShaders gl doc shaders 0 s
  let program := s1.nextHandle
  let s2 : GLState :=
    { nextHandle := s1.nextHandle + 1,
      trace := s1.trace ++ [GLCall.createProgram gl.id program] ++
        realShaders.map (fun shader => GLCall.attachShader gl.id program shader) ++
        [GLCall.linkProgram gl.id program] }
  let linked := gl.linkOk
  if linked = false then
    (none, { s2 with trace := s2.trace ++ [GLCall.deleteProgram gl.id program] ++
              deleteShaders gl realShaders })
  else
    (some program, s2)

/-- The built-in default vertex stage source `vs` of WebGLProgram.js
(braces written as escapes). -/
def vs : String :=
  "#version 300 es\nlayout(location=0) in vec3 position;\nlayout(location=1) in vec3 color;\nuniform mat4 modelMatrix;\n\nout vec3 v_color;\n\nvoid main() \x7b\n  gl_Position = modelMatrix * vec4( position, 1.0 );\n  v_color = color;\n\x7d\n"

/-- The built-in default fragment stage source `fs` of WebGLProgram.js
(braces written as escapes). -/
def fs : String :=
  "#version 300 es\nprecision highp float;\n\nuniform float useUniformColor; // use uniform color if this is 1, otherwise use the color attribute (default)\nuniform vec4 color; // color input\nout vec4 fragColor; // fragment color output\n\nin vec3 v_color;\n\n\nvoid main() \x7b\n    vec3 _color = (useUniformColor > 0.0) ? color.rgb : v_color.rgb;\n    fragColor = vec4( _color.rgb, 1.0 ); // only assign the fragment color\n\x7d\n"

/-- The `WebGLProgram` wrapper object (fields set by its constructor). -/
structure WebGLProgram where
  gl : GLContext
  vertexShader : String
  fragmentShader : String
  program : Option Nat

/-- The `WebGLProgram` constructor: validate that the context has a
callable `getParameter`, then compile-and-link the built-in `vs`/`fs`
pair via `createProgram` and retain the result. -/
def WebGLProgram.construct (gl : GLContext) (doc : String → Option String)
    (s : GLState) : Option WebGLProgram × GLState × Option GLError :=
  if gl.hasGetParameter = false then
    (none, s, some .invalidContext)
  else
    let (program, s1) := createProgram gl [ShaderArg.src vs, ShaderArg.src fs] doc s
    (some { gl := gl, vertexShader := vs, fragmentShader := fs,
            program := program }, s1, none)

/-- The runtime shapes `setUniform` discriminates between, in the order of
its if-else chain: `typeof value === 'number'`, `typeof value ===
'boolean'`, `value instanceof Array` (a *plain* JS array — typed arrays
such as `Float32Array` are ArrayBuffer views, **not** `instanceof Array`,
and carry none of the marker flags, so they fall through to the final
else), then the duck-typed markers `isColor` (with `{r,g,b}` fields),
`isMatrix4`/`isMatrix3` (with 16/9-element `elements` storage),
`isVector3` (`{x,y,z}`), `isVector4` (`{x,y,z,w}`), and anything else.
`ctorName` records `value.constructor.name` for the warning text. -/
inductive UniformValue where
  | num (v : Rat)
  | boolean (b : Bool)
  | arr (elems : List Rat)
  | typedArr (ctorName : String) (elems : List Rat)
  | color (r g b : Rat)
  | matrix4 (elements : List Rat)
  | matrix3 (elements : List Rat)
  | vector3 (x y z : Rat)
  | vector4 (x y z w : Rat)
  | other (ctorName : String)
deriving DecidableEq, Repr

/-- A uniform-setting call issued on the context by `setUniform`, or one
of its `console.warn` diagnostics.  `uniformNfv` is the dynamically named
`gl.uniform<n>fv` vector call. -/
inductive UniformCall where
  | uniform1f (loc : Nat) (x : Rat)
  | uniform2f (loc : Nat) (x y : Rat)
  | uniform3f (loc : Nat) (x y z : Rat)
  | uniform4f (loc : Nat) (x y z w : Rat)
  | uniformNfv (n : Nat) (loc : Nat) (v : List Rat)
  | uniformMatrix4fv (loc : Nat) (transpose : Bool) (elements : List Rat)
  | uniformMatrix3fv (loc : Nat) (transpose : Bool) (elements : List Rat)
  | warnUniformNotFound (name : String)
  | warnUnsupported (ctorName : String)
deriving DecidableEq, Repr

/-- `WebGLProgram.setUniform`.  Looks up the uniform location; when absent
warns and returns.  Otherwise reads `uniformLength = getUniform(...).length`
and dispatches on the runtime shape of `value` (see `UniformValue`).
A plain array dispatches through the dynamically named `uniform<len>fv`,
which exists on the context only for `len` 1–4 — any other length makes
`this.gl[uniformCall]` undefined and calling it a `TypeError`.  A color
dispatches through the dynamically named `uniform<uniformLength>f` with
the four argument expressions `r, g, b, 1.0`; the named function consumes
only its declared arity of arguments (JS ignores extra arguments), and
does not exist (TypeError) when `uniformLength` is outside 1–4 or
undefined. -/
def WebGLProgram.setUniform (p : WebGLProgram) (name : String)
    (value : UniformValue) : Except GLError (List UniformCall) :=
  match p.gl.uniformLoc name with
  | none => .ok [UniformCall.warnUniformNotFound name]
  | some loc =>
    let uniformLength := p.gl.uniformLen loc
    match value with
    | .num v => .ok [UniformCall.uniform1f loc v]
    | .boolean b => .ok [UniformCall.uniform1f loc (if b then 1 else 0)]
    | .arr elems =>
      let len := elems.length
      if 1 ≤ len ∧ len ≤ 4 then
        .ok [UniformCall.uniformNfv len loc elems]
      else
        .error (.typeError ("uniform" ++ toString len ++ "fv"))
    | .color r g b =>
      match uniformLength with
      | some 1 => .ok [UniformCall.uniform1f loc r]
      | some 2 => .ok [UniformCall.uniform2f loc r g]
      | some 3 => .ok [UniformCall.uniform3f loc r g b]
      | some 4 => .ok [UniformCall.uniform4f loc r g b 1]
      | some n => .error (.typeError ("uniform" ++ toString n ++ "f"))
      | none => .error (.typeError "uniformundefinedf")
    | .matrix4 elements => .ok [UniformCall.uniformMatrix4fv loc false elements]
    | .matrix3 elements => .ok [UniformCall.uniformMatrix3fv loc false elements]
    | .vector3 x y z => .ok [UniformCall.uniform3f loc x y z]
    | .vector4 x y z w => .ok [UniformCall.uniform4f loc x y z w]
    | .typedArr ctorName _ => .ok [UniformCall.warnUnsupported ctorName]
    | .other ctorName => .ok [UniformCall.warnUnsupported ctorName]

/-! ## Helper lemmas -/

/-- `getLastD` of a nonempty list is one of its elements. -/
theorem getLastD_mem {α : Type} : ∀ (l : List α) (d : α), l ≠ [] → l.getLastD d ∈ l := by
  intro l
  induction l with
  | nil => intro d h; exact absurd rfl h
  | cons a t ih =>
    intro d _
    rw [List.getLastD_cons]
    cases t with
    | nil => simp [List.getLastD]
    | cons b t2 => exact List.mem_cons_of_mem a (ih a (by simp))

/-- On a context with `createBuffer`, the attribute-upload loop succeeds,
records each attribute's `count = array.length / itemSize`, returns the
last attribute's count as the running `attrCount` (the initial value for
an empty attribute set), and issues no draw calls. -/
theorem uploadAttributes_ok (gl : GLContext) (hcb : gl.hasCreateBuffer = true) :
    ∀ (attrs : List (String × Attribute)) (acc : Rat) (s : GLState),
      ∃ out s2,
        uploadAttributes gl attrs acc s =
          .ok (out, (attrs.map fun ka => attrCountOf ka.2).getLastD acc, s2) ∧
        out.map (fun ka => ka.2.count) = attrs.map (fun ka => some (attrCountOf ka.2)) ∧
        s2.trace.filter GLCall.isDrawCall = s.trace.filter GLCall.isDrawCall := by
  intro attrs
  induction attrs with
  | nil =>
    intro acc s
    exact ⟨[], s, rfl, rfl, rfl⟩
  | cons ka rest ih =>
    intro acc s
    obtain ⟨k, a⟩ := ka
    obtain ⟨out, s2, h1, h2, h3⟩ := ih (attrCountOf a)
      { nextHandle := s.nextHandle + 1,
        trace := s.trace ++
          [GLCall.createBuffer gl.id s.nextHandle,
           GLCall.bindBuffer gl.id .ARRAY_BUFFER (some s.nextHandle),
           GLCall.bufferData gl.id .ARRAY_BUFFER a.array] }
    refine ⟨(k, { a with
                   buffer := some s.nextHandle,
                   count := some (attrCountOf a) }) :: out, s2, ?_, ?_, ?_⟩
    · simp only [uploadAttributes, createBuffer, hcb, if_pos, h1, List.map_cons,
        List.getLastD_cons]
    · simp [h2]
    · rw [h3]
      simp [List.filter_append, GLCall.isDrawCall]

/-- The only error the attribute-upload loop can raise is the `TypeError`
from calling a missing `gl.createBuffer`. -/
theorem uploadAttributes_error (gl : GLContext) (attrs : List (String × Attribute))
    (acc : Rat) (s : GLState) (e : GLError)
    (h : uploadAttributes gl attrs acc s = .error e) : e = .typeError "createBuffer" := by
  by_cases hcb : gl.hasCreateBuffer = true
  · obtain ⟨out, s2, h1, -, -⟩ := uploadAttributes_ok gl hcb attrs acc s
    rw [h1] at h
    exact absurd h (by simp)
  · cases attrs with
    | nil => simp [uploadAttributes] at h
    | cons ka rest =>
      obtain ⟨k, a⟩ := ka
      simp [uploadAttributes, createBuffer, hcb] at h
      exact h.symm

/-- The only error `createIndex` can raise is the `TypeError` from calling
a missing `gl.createBuffer`. -/
theorem createIndex_error (gl : GLContext) (indices : List Rat) (s : GLState)
    (e : GLError) (h : createIndex gl indices s = .error e) :
    e = .typeError "createBuffer" := by
  by_cases hcb : gl.hasCreateBuffer = true <;> simp [createIndex, hcb] at h
  exact h.symm

/-- `init` on an already-initialized geometry is a pure no-op. -/
theorem init_noop (g : BufferGeometry) (ctx : GLContext) (s : GLState)
    (h : g.isInitialized = true) : g.init ctx s = (g, s, none) := by
  simp [BufferGeometry.init, h]

/-- When `init` returns without throwing, the initialized flag is set. -/
theorem init_ok_flag (g : BufferGeometry) (ctx : GLContext) (s : GLState)
    (h : (g.init ctx s).2.2 = none) : (g.init ctx s).1.isInitialized = true := by
  unfold BufferGeometry.init at h ⊢
  by_cases hf : g.isInitialized = false
  · rw [if_pos hf] at h ⊢
    by_cases hgp : ctx.hasGetParameter = false
    · rw [if_pos hgp] at h
      simp at h
    · rw [if_neg hgp] at h ⊢
      rcases hup : uploadAttributes ctx g.attributes 0 s with e | ⟨attrs, attrCount, s1⟩
      · simp only [hup] at h
        simp at h
      · simp only [hup] at h ⊢
        by_cases hmm : findMismatch attrs attrCount
        · simp [hmm] at h
        · simp only [hmm, Bool.false_eq_true, if_neg, if_false] at h ⊢
          rcases hidx : g.index with _ | idx
          · simp only [hidx] at h ⊢
          · simp only [hidx] at h ⊢
            rcases hci : createIndex ctx idx.array s1 with e | ⟨buf, s2⟩
            · simp only [hci] at h
              simp at h
            · simp only [hci] at h ⊢
  · rw [if_neg hf] at h ⊢
    simpa using hf

/-- The attribute-bind loop of `draw` issues no draw calls. -/
theorem bindEvents_no_draw (gl : GLContext) (attrs : List (String × Attribute)) :
    (attrs.flatMap fun ka => useBuffer gl ka.2.buffer ka.2.itemSize
      ((getAttribLocation ka.1).getD 0) ka.2.normalize).filter GLCall.isDrawCall = [] := by
  induction attrs with
  | nil => rfl
  | cons ka rest ih =>
    rw [List.flatMap_cons, List.filter_append, ih, List.append_nil]
    rfl

/-- The attribute-disable loop of `draw` issues no draw calls. -/
theorem disableEvents_no_draw (gl : GLContext) (attrs : List (String × Attribute)) :
    (attrs.flatMap fun ka =>
      disableBuffer gl ((getAttribLocation ka.1).getD 0)).filter GLCall.isDrawCall = [] := by
  induction attrs with
  | nil => rfl
  | cons ka rest ih =>
    rw [List.flatMap_cons, List.filter_append, ih, List.append_nil]
    rfl

/-- Every event of the attribute-bind loop is issued on the captured
context and allocates nothing. -/
theorem bindEvents_ctx (gl : GLContext) (attrs : List (String × Attribute)) (ev : GLCall)
    (h : ev ∈ attrs.flatMap fun ka => useBuffer gl ka.2.buffer ka.2.itemSize
      ((getAttribLocation ka.1).getD 0) ka.2.normalize) :
    ev.ctxOf = gl.id ∧ ev.isAllocation = false := by
  rw [List.mem_flatMap] at h
  obtain ⟨ka, -, hev⟩ := h
  simp [useBuffer] at hev
  rcases hev with h | h | h | h <;> subst h <;> exact ⟨rfl, rfl⟩

/-- Every event of the attribute-disable loop is issued on the captured
context and allocates nothing. -/
theorem disableEvents_ctx (gl : GLContext) (attrs : List (String × Attribute)) (ev : GLCall)
    (h : ev ∈ attrs.flatMap fun ka =>
      disableBuffer gl ((getAttribLocation ka.1).getD 0)) :
    ev.ctxOf = gl.id ∧ ev.isAllocation = false := by
  rw [List.mem_flatMap] at h
  obtain ⟨ka, -, hev⟩ := h
  simp [disableBuffer] at hev
  subst hev
  exact ⟨rfl, rfl⟩

/-- When two attributes were uploaded with different element counts, the
validation loop finds a mismatch against the last-written `attrCount`. -/
theorem findMismatch_of_two (attrs out : List (String × Attribute))
    (hmap : out.map (fun ka => ka.2.count) = attrs.map (fun ka => some (attrCountOf ka.2)))
    (ka1 ka2 : String × Attribute) (h1 : ka1 ∈ attrs) (h2 : ka2 ∈ attrs)
    (hne : attrCountOf ka1.2 ≠ attrCountOf ka2.2) :
    findMismatch out ((attrs.map fun ka => attrCountOf ka.2).getLastD 0) = true := by
  set lastC := (attrs.map fun ka => attrCountOf ka.2).getLastD 0 with hlastC
  have hLne : (attrs.map fun ka => attrCountOf ka.2) ≠ [] := by
    intro hnil
    rw [List.map_eq_nil_iff] at hnil
    rw [hnil] at h1
    exact absurd h1 (List.not_mem_nil ka1)
  have hlastMem : lastC ∈ attrs.map fun ka => attrCountOf ka.2 :=
    getLastD_mem _ 0 hLne
  have hex : ∃ c ∈ attrs.map fun ka => attrCountOf ka.2, c ≠ lastC := by
    by_cases hc1 : attrCountOf ka1.2 = lastC
    · refine ⟨attrCountOf ka2.2, List.mem_map_of_mem _ h2, fun hc2 => ?_⟩
      exact hne (hc1.trans hc2.symm)
    · exact ⟨attrCountOf ka1.2, List.mem_map_of_mem _ h1, hc1⟩
  obtain ⟨c, hcL, hcne⟩ := hex
  obtain ⟨ka, hka, hkac⟩ := List.mem_map.mp hcL
  have hsc : some c ∈ out.map fun ka => ka.2.count := by
    rw [hmap]
    exact List.mem_map.mpr ⟨ka, hka, by rw [hkac]⟩
  obtain ⟨x, hx, hxc⟩ := List.mem_map.mp hsc
  refine List.any_eq_true.mpr ⟨x, hx, ?_⟩
  rw [hxc]
  rw [bne_iff_ne]
  intro hcontra
  exact hcne (Option.some.inj hcontra)

/-- `realShaders` has exactly one entry (the compile result, possibly
null) per *string* element of `shaders`; non-string elements contribute
nothing. -/
theorem collectRealShaders_length (gl : GLContext) (doc : String → Option String) :
    ∀ (shaders : List ShaderArg) (ndx : Nat) (s : GLState),
      (collectRealShaders gl doc shaders ndx s).1.length =
        shaders.countP ShaderArg.isString := by
  intro shaders
  induction shaders with
  | nil => intro ndx s; rfl
  | cons arg rest ih =>
    intro ndx s
    cases arg with
    | src str =>
      simp [collectRealShaders, List.countP_cons, ShaderArg.isString, ih]
    | handle hdl =>
      simp [collectRealShaders, List.countP_cons, ShaderArg.isString, ih]

/-- The compile loop issues no `attachShader` calls. -/
theorem collectRealShaders_no_attach (gl : GLContext) (doc : String → Option String) :
    ∀ (shaders : List ShaderArg) (ndx : Nat) (s : GLState),
      (collectRealShaders gl doc shaders ndx s).2.trace.filter GLCall.isAttachCall =
        s.trace.filter GLCall.isAttachCall := by
  intro shaders
  induction shaders with
  | nil => intro ndx s; rfl
  | cons arg rest ih =>
    intro ndx s
    cases arg with
    | src str =>
      by_cases hc : gl.compileOk ((doc str).getD str) = false
      · simp [collectRealShaders, loadShader, hc, ih, List.filter_append,
          GLCall.isAttachCall]
      · simp [collectRealShaders, loadShader, hc, ih, List.filter_append,
          GLCall.isAttachCall]
    | handle hdl =>
      simp [collectRealShaders, ih]

/-! ## Concrete fixtures used by witnesses and counterexamples -/

/-- A fully capable context (compilation and linking succeed; every
uniform name resolves to location 0, whose `getUniform` result has
`length` 3 — a `vec3` uniform). -/
def ctxA : GLContext :=
  { id := 0, hasGetParameter := true, hasCreateBuffer := true,
    compileOk := fun _ => true, linkOk := true,
    uniformLoc := fun _ => some 0, uniformLen := fun _ => some 3 }

/-- A second fully capable context with a different identity. -/
def ctxB : GLContext :=
  { id := 7, hasGetParameter := true, hasCreateBuffer := true,
    compileOk := fun _ => true, linkOk := true,
    uniformLoc := fun _ => some 0, uniformLen := fun _ => some 3 }

/-- A context exposing `getParameter` but *no* `createBuffer` — it lacks
the buffer-creation capability surface. -/
def ctxNoBuf : GLContext :=
  { id := 1, hasGetParameter := true, hasCreateBuffer := false,
    compileOk := fun _ => true, linkOk := true,
    uniformLoc := fun _ => none, uniformLen := fun _ => none }

/-- A context with no `getParameter` member. -/
def ctxNoGP : GLContext :=
  { id := 2, hasGetParameter := false, hasCreateBuffer := true,
    compileOk := fun _ => true, linkOk := true,
    uniformLoc := fun _ => none, uniformLen := fun _ => none }

/-- Initial world state. -/
def s0 : GLState := { nextHandle := 1, trace := [] }

/-- The spec's non-indexed example: a lone `position` attribute of 9
floats with `itemSize` 3. -/
def gPos : BufferGeometry :=
  { attributes := [("position",
      { array := [0, 0, 0, 1, 0, 0, 0, 1, 0], itemSize := 3 })] }

/-- `gPos` after a successful first initialization on `ctxA`. -/
def gPos1 : BufferGeometry := (gPos.init ctxA s0).1

/-- The world state after initializing `gPos` on `ctxA`. -/
def sPos1 : GLState := (gPos.init ctxA s0).2.1

/-- The spec's indexed example: a `position` attribute of 12 floats
(`itemSize` 3) plus the index list `[0,1,2,2,1,3]`. -/
def gIdx : BufferGeometry :=
  { attributes := [("position",
      { array := [0, 0, 0, 1, 0, 0, 0, 1, 0, 1, 1, 0], itemSize := 3 })],
    index := some { array := [0, 1, 2, 2, 1, 3] } }

/-- `gIdx` after a successful first initialization on `ctxA`. -/
def gIdx1 : BufferGeometry := (gIdx.init ctxA s0).1

/-- The world state after initializing `gIdx` on `ctxA`. -/
def sIdx1 : GLState := (gIdx.init ctxA s0).2.1

/-- A geometry whose two attributes have different element counts
(2 versus 1). -/
def gMismatch : BufferGeometry :=
  { attributes := [("position", { array := [0, 0, 0, 1, 1, 0], itemSize := 3 }),
                   ("color", { array := [1, 0, 0], itemSize := 3 })] }

/-- A geometry with a single attribute. -/
def gOne : BufferGeometry :=
  { attributes := [("position", { array := [0, 0, 0], itemSize := 3 })] }

/-- A program wrapper on `ctxA` (uniform arity 3). -/
def pA : WebGLProgram :=
  { gl := ctxA, vertexShader := vs, fragmentShader := fs, program := some 5 }

/-- A program wrapper whose context declares every uniform with arity 4
(a `vec4` uniform). -/
def pB : WebGLProgram :=
  { gl := { ctxA with uniformLen := fun _ => some 4 },
    vertexShader := vs, fragmentShader := fs, program := some 5 }

/-! ## Claim theorems -/

/-- C1, counterexample: a geometry whose two attributes have element
counts 2 and 1, initialized on a fully valid context, fails with
`InconsistentAttributeCount` — and its `isInitialized` flag is `false`
afterwards, not `true` as the claim states (the `throw` happens before
the line `this.isInitialized = true` is reached). -/
theorem init_mismatch_flag_cex :
    (gMismatch.init ctxA s0).2.2 = some GLError.inconsistentAttributeCount ∧
    (gMismatch.init ctxA s0).1.isInitialized = false :=
  ⟨rfl, rfl⟩

/-- C1, amended: whenever `init` fails (with `InconsistentAttributeCount`
or any other error), the geometry's initialized flag is left `false`;
the object is *not* marked initialized before the validation failure is
raised. -/
theorem init_failure_leaves_flag_false (g : BufferGeometry) (ctx : GLContext)
    (s : GLState) (e : GLError) (h : (g.init ctx s).2.2 = some e) :
    (g.init ctx s).1.isInitialized = false := by
  unfold BufferGeometry.init at h ⊢
  by_cases hf : g.isInitialized = false
  · rw [if_pos hf] at h ⊢
    by_cases hgp : ctx.hasGetParameter = false
    · rw [if_pos hgp]
      exact hf
    · rw [if_neg hgp] at h ⊢
      rcases hup : uploadAttributes ctx g.attributes 0 s with e2 | ⟨attrs, attrCount, s1⟩
      · simp only [hup] at h ⊢
        exact hf
      · simp only [hup] at h ⊢
        by_cases hmm : findMismatch attrs attrCount = true
        · simp only [hmm, if_true] at h ⊢
          exact hf
        · simp only [hmm, if_false] at h ⊢
          rcases hidx : g.index with _ | idx
          · simp only [hidx] at h
            simp at h
          · simp only [hidx] at h ⊢
            rcases hci : createIndex ctx idx.array s1 with e2 | ⟨buf, s2⟩
            · simp only [hci] at h ⊢
              exact hf
            · simp only [hci] at h
              simp at h
  · rw [if_neg hf] at h
    simp at h

/-- C1, witness for the amended theorem at the concrete mismatching
geometry. -/
theorem init_failure_leaves_flag_false_witness :
    (gMismatch.init ctxA s0).1.isInitialized = false :=
  init_failure_leaves_flag_false gMismatch ctxA s0
    GLError.inconsistentAttributeCount rfl

/-- C4: initializing twice is observably identical to initializing once —
after a successful (non-throwing) `init`, a second `init` with *any*
context returns the geometry and the world state completely unchanged
(no buffer creation, no upload, no trace growth) and raises no error. -/
theorem init_idempotent (g : BufferGeometry) (c1 c2 : GLContext) (s : GLState)
    (g1 : BufferGeometry) (s1 : GLState) (h : g.init c1 s = (g1, s1, none)) :
    g1.init c2 s1 = (g1, s1, none) := by
  have hflag : g1.isInitialized = true := by
    have h2 := init_ok_flag g c1 s (by rw [h])
    rwa [h] at h2
  exact init_noop g1 c2 s1 hflag

/-- C4, witness: the single-attribute example geometry, initialized on
`ctxA`, is untouched by a second `init` — even on the different context
`ctxB`. -/
theorem init_idempotent_witness :
    gPos1.init ctxB sPos1 = (gPos1, sPos1, none) :=
  init_idempotent gPos ctxA ctxB s0 gPos1 sPos1 rfl

/-- C5: when two attributes have different element counts
(`array.length / itemSize`), `init` on a capable context fails with
`InconsistentAttributeCount`, and the initialization issues no draw
call (the trace gains no `drawArrays`/`drawElements` event). -/
theorem init_inconsistent_no_draw (g : BufferGeometry) (ctx : GLContext) (s : GLState)
    (h0 : g.isInitialized = false) (hgp : ctx.hasGetParameter = true)
    (hcb : ctx.hasCreateBuffer = true) (ka1 ka2 : String × Attribute)
    (hm1 : ka1 ∈ g.attributes) (hm2 : ka2 ∈ g.attributes)
    (hne : attrCountOf ka1.2 ≠ attrCountOf ka2.2) :
    (g.init ctx s).2.2 = some GLError.inconsistentAttributeCount ∧
    (g.init ctx s).2.1.trace.filter GLCall.isDrawCall =
      s.trace.filter GLCall.isDrawCall := by
  obtain ⟨out, s2, h1, h2, h3⟩ := uploadAttributes_ok ctx hcb g.attributes 0 s
  have hmm := findMismatch_of_two g.attributes out h2 ka1 ka2 hm1 hm2 hne
  unfold BufferGeometry.init
  rw [if_pos h0]
  have hgp2 : ¬(ctx.hasGetParameter = false) := by simp [hgp]
  rw [if_neg hgp2]
  simp only [h1, hmm, if_true]
  exact ⟨trivial, h3⟩

/-- C5, witness at the concrete mismatching geometry (counts 2 and 1). -/
theorem init_inconsistent_no_draw_witness :
    (gMismatch.init ctxB s0).2.2 = some GLError.inconsistentAttributeCount ∧
    (gMismatch.init ctxB s0).2.1.trace.filter GLCall.isDrawCall =
      s0.trace.filter GLCall.isDrawCall :=
  init_inconsistent_no_draw gMismatch ctxB s0 rfl rfl rfl
    ("position", { array := [0, 0, 0, 1, 1, 0], itemSize := 3 })
    ("color", { array := [1, 0, 0], itemSize := 3 })
    (by decide) (by decide) (by decide)

/-- C6: on an initialized geometry, `draw` issues exactly one draw call —
an indexed `drawElements(TRIANGLES, index.count, UNSIGNED_SHORT)` when an
index is present, else a non-indexed
`drawArrays(TRIANGLES, 0, position.count)` — and completes without
error. -/
theorem draw_issues_one_draw_call (g : BufferGeometry) (ctx : GLContext) (s : GLState)
    (hInit : g.isInitialized = true) (hgl : g.gl = some ctx) :
    (∀ idx, g.index = some idx →
      (g.draw none s).1 = g ∧ (g.draw none s).2.2 = none ∧
      (g.draw none s).2.1.trace.filter GLCall.isDrawCall =
        s.trace.filter GLCall.isDrawCall ++
          [GLCall.drawElements ctx.id PrimMode.TRIANGLES idx.count
            IndexKind.UNSIGNED_SHORT]) ∧
    (∀ attrib, g.index = none → g.attributes.lookup "position" = some attrib →
      (g.draw none s).1 = g ∧ (g.draw none s).2.2 = none ∧
      (g.draw none s).2.1.trace.filter GLCall.isDrawCall =
        s.trace.filter GLCall.isDrawCall ++
          [GLCall.drawArrays ctx.id PrimMode.TRIANGLES 0 attrib.count]) := by
  constructor
  · intro idx hidx
    unfold BufferGeometry.draw
    simp only [hInit, hgl, hidx]
    refine ⟨by simp, by simp, ?_⟩
    simp [List.filter_append, bindEvents_no_draw, disableEvents_no_draw,
      GLCall.isDrawCall]
  · intro attrib hidx hpos
    unfold BufferGeometry.draw
    simp only [hInit, hgl, hidx, hpos]
    refine ⟨by simp, by simp, ?_⟩
    simp [List.filter_append, bindEvents_no_draw, disableEvents_no_draw,
      GLCall.isDrawCall]

/-- C6, witness at the spec's two examples: the indexed geometry draws
exactly `drawElements(TRIANGLES, 6, UNSIGNED_SHORT)` and the 9-float
`position` geometry draws exactly `drawArrays(TRIANGLES, 0, 3)`. -/
theorem draw_issues_one_draw_call_witness :
    ((gIdx1.draw none sIdx1).2.2 = none ∧
      (gIdx1.draw none sIdx1).2.1.trace.filter GLCall.isDrawCall =
        sIdx1.trace.filter GLCall.isDrawCall ++
          [GLCall.drawElements 0 PrimMode.TRIANGLES (some 6)
            IndexKind.UNSIGNED_SHORT]) ∧
    ((gPos1.draw none sPos1).2.2 = none ∧
      (gPos1.draw none sPos1).2.1.trace.filter GLCall.isDrawCall =
        sPos1.trace.filter GLCall.isDrawCall ++
          [GLCall.drawArrays 0 PrimMode.TRIANGLES 0 (some 3)]) := by
  have h1 := (draw_issues_one_draw_call gIdx1 ctxA sIdx1 rfl rfl).1
    { array := [0, 1, 2, 2, 1, 3], buffer := some 2, count := some 6 } rfl
  have h2 := (draw_issues_one_draw_call gPos1 ctxA sPos1 rfl rfl).2
    { array := [0, 0, 0, 1, 0, 0, 0, 1, 0], itemSize := 3,
      buffer := some 1, count := some 3 } rfl rfl
  exact ⟨⟨h1.2.1, h1.2.2⟩, ⟨h2.2.1, h2.2.2⟩⟩

/-- C10: once a geometry is initialized on a context, a later `draw`
given a *different* context handle leaves the geometry (and hence its
bound context) unchanged, allocates and uploads nothing, and issues
every call of that draw on the originally captured context. -/
theorem draw_uses_captured_context (g : BufferGeometry) (ctx1 ctx2 : GLContext)
    (s : GLState) (hInit : g.isInitialized = true) (hgl : g.gl = some ctx1)
    (hok : g.index.isSome ∨ (g.attributes.lookup "position").isSome) :
    (g.draw (some ctx2) s).1 = g ∧ (g.draw (some ctx2) s).2.2 = none ∧
    ∃ tr, (g.draw (some ctx2) s).2.1.trace = s.trace ++ tr ∧
      ∀ ev ∈ tr, ev.ctxOf = ctx1.id ∧ ev.isAllocation = false := by
  have hinit2 : g.init ctx2 s = (g, s, none) := init_noop g ctx2 s hInit
  unfold BufferGeometry.draw
  rcases hidx : g.index with _ | idx
  · rcases hpos : g.attributes.lookup "position" with _ | attrib
    · rcases hok with hsome | hsome
      · rw [hidx] at hsome
        simp at hsome
      · rw [hpos] at hsome
        simp at hsome
    · simp only [hinit2, hInit, hgl, hidx, hpos]
      refine ⟨by simp, by simp, ?_⟩
      rw [List.append_assoc, List.append_assoc]
      refine ⟨_, rfl, ?_⟩
      intro ev hev
      rcases List.mem_append.mp hev with hb | hbc
      · exact bindEvents_ctx ctx1 g.attributes ev hb
      · rcases List.mem_append.mp hbc with hd | hdis
        · simp at hd
          subst hd
          exact ⟨rfl, rfl⟩
        · exact disableEvents_ctx ctx1 g.attributes ev hdis
  · simp only [hinit2, hInit, hgl, hidx]
    refine ⟨by simp, by simp, ?_⟩
    rw [List.append_assoc, List.append_assoc]
    refine ⟨_, rfl, ?_⟩
    intro ev hev
    rcases List.mem_append.mp hev with hb | hbc
    · exact bindEvents_ctx ctx1 g.attributes ev hb
    · rcases List.mem_append.mp hbc with hd | hdis
      · simp at hd
        rcases hd with hd | hd <;> subst hd <;> exact ⟨rfl, rfl⟩
      · exact disableEvents_ctx ctx1 g.attributes ev hdis

/-- C10, witness: the geometry initialized on `ctxA` (id 0), drawn with
the different context `ctxB` (id 7), keeps `ctxA` bound and issues every
event of that draw on context 0. -/
theorem draw_uses_captured_context_witness :
    (gPos1.draw (some ctxB) sPos1).1 = gPos1 ∧
    (gPos1.draw (some ctxB) sPos1).2.2 = none ∧
    ∃ tr, (gPos1.draw (some ctxB) sPos1).2.1.trace = sPos1.trace ++ tr ∧
      ∀ ev ∈ tr, ev.ctxOf = ctxA.id ∧ ev.isAllocation = false :=
  draw_uses_captured_context gPos1 ctxA ctxB sPos1 rfl rfl (Or.inr (by decide))

/-- C3, counterexample: `ctxNoBuf` exposes `getParameter` but lacks the
buffer-creation capability; an attribute-free geometry initializes on it
with *no* error at all, and a one-attribute geometry fails with the
`TypeError` from the missing `createBuffer` member — in neither case is
`InvalidContext` raised. -/
theorem init_missing_createBuffer_cex :
    (({} : BufferGeometry).init ctxNoBuf s0).2.2 = none ∧
    (gOne.init ctxNoBuf s0).2.2 = some (GLError.typeError "createBuffer") :=
  ⟨rfl, rfl⟩

/-- C3, amended: both `init` and the `WebGLProgram` constructor fail with
`InvalidContext` exactly when the context lacks a callable `getParameter`
member; no other part of the capability surface (in particular not buffer
creation) is validated by either. -/
theorem invalidContext_iff_missing_getParameter (g : BufferGeometry)
    (ctx : GLContext) (doc : String → Option String) (s : GLState)
    (h0 : g.isInitialized = false) :
    ((g.init ctx s).2.2 = some GLError.invalidContext ↔
      ctx.hasGetParameter = false) ∧
    ((WebGLProgram.construct ctx doc s).2.2 = some GLError.invalidContext ↔
      ctx.hasGetParameter = false) := by
  constructor
  · unfold BufferGeometry.init
    rw [if_pos h0]
    by_cases hgp : ctx.hasGetParameter = false
    · simp [hgp]
    · rw [if_neg hgp]
      simp only [hgp, iff_false]
      rcases hup : uploadAttributes ctx g.attributes 0 s with e | ⟨attrs, attrCount, s1⟩
      · have he := uploadAttributes_error ctx g.attributes 0 s e hup
        simp [he]
      · by_cases hmm : findMismatch attrs attrCount = true
        · simp [hmm]
        · simp only [hmm, if_false]
          rcases hidx : g.index with _ | idx
          · simp
          · rcases hci : createIndex ctx idx.array s1 with e | ⟨buf, s2⟩
            · have he := createIndex_error ctx idx.array s1 e hci
              simp [hci, he]
            · simp [hci]
  · unfold WebGLProgram.construct
    by_cases hgp : ctx.hasGetParameter = false
    · simp [hgp]
    · simp [hgp]

/-- C3, witness: on the context with no `getParameter`, both operations
do fail with `InvalidContext`. -/
theorem invalidContext_iff_missing_getParameter_witness :
    ((gOne.init ctxNoGP s0).2.2 = some GLError.invalidContext ↔
      ctxNoGP.hasGetParameter = false) ∧
    ((WebGLProgram.construct ctxNoGP (fun _ => none) s0).2.2 =
        some GLError.invalidContext ↔
      ctxNoGP.hasGetParameter = false) :=
  invalidContext_iff_missing_getParameter gOne ctxNoGP (fun _ => none) s0 rfl

/-- C2, counterexample: a stages list consisting of one pre-compiled
stage handle (42).  `createProgram` creates and links the program without
a single `attachShader` call — the pre-compiled handle is never attached
(the push into `realShaders` happens only in the string branch). -/
theorem createProgram_skips_handle_cex :
    (createProgram ctxA [ShaderArg.handle 42] (fun _ => none) s0).2.trace =
      [GLCall.createProgram 0 1, GLCall.linkProgram 0 1] ∧
    (createProgram ctxA [ShaderArg.handle 42] (fun _ => none) s0).2.trace.filter
      GLCall.isAttachCall = [] ∧
    (createProgram ctxA [ShaderArg.handle 42] (fun _ => none) s0).1 = some 1 :=
  ⟨rfl, rfl, rfl⟩

/-- C2, amended: only the *raw source string* elements of `stages` are
compiled, and exactly their compile results (one per string element, even
the null sentinel of a failed compilation) are attached to the new
program object before the `linkProgram` call; pre-compiled stage handles
are never attached.  The compile phase itself issues no `attachShader`
call, so the attaches happen precisely between program creation and
linking. -/
theorem createProgram_attaches_compiled_sources (gl : GLContext)
    (doc : String → Option String) (shaders : List ShaderArg) (s : GLState)
    (hlink : gl.linkOk = true) :
    (createProgram gl shaders doc s).2.trace =
      (collectRealShaders gl doc shaders 0 s).2.trace ++
        [GLCall.createProgram gl.id
          (collectRealShaders gl doc shaders 0 s).2.nextHandle] ++
        ((collectRealShaders gl doc shaders 0 s).1.map fun shader =>
          GLCall.attachShader gl.id
            (collectRealShaders gl doc shaders 0 s).2.nextHandle shader) ++
        [GLCall.linkProgram gl.id
          (collectRealShaders gl doc shaders 0 s).2.nextHandle] ∧
    (collectRealShaders gl doc shaders 0 s).1.length =
      shaders.countP ShaderArg.isString ∧
    (collectRealShaders gl doc shaders 0 s).2.trace.filter GLCall.isAttachCall =
      s.trace.filter GLCall.isAttachCall := by
  refine ⟨?_, collectRealShaders_length gl doc shaders 0 s,
    collectRealShaders_no_attach gl doc shaders 0 s⟩
  unfold createProgram
  simp [hlink]

/-- C2, witness for the amended theorem at a concrete mixed stages list:
two raw sources around one pre-compiled handle. -/
theorem createProgram_attaches_compiled_sources_witness :
    (createProgram ctxA [ShaderArg.src "V", ShaderArg.handle 42, ShaderArg.src "F"]
        (fun _ => none) s0).2.trace =
      (collectRealShaders ctxA (fun _ => none)
          [ShaderArg.src "V", ShaderArg.handle 42, ShaderArg.src "F"] 0 s0).2.trace ++
        [GLCall.createProgram ctxA.id
          (collectRealShaders ctxA (fun _ => none)
            [ShaderArg.src "V", ShaderArg.handle 42, ShaderArg.src "F"]
            0 s0).2.nextHandle] ++
        ((collectRealShaders ctxA (fun _ => none)
            [ShaderArg.src "V", ShaderArg.handle 42, ShaderArg.src "F"]
            0 s0).1.map fun shader =>
          GLCall.attachShader ctxA.id
            (collectRealShaders ctxA (fun _ => none)
              [ShaderArg.src "V", ShaderArg.handle 42, ShaderArg.src "F"]
              0 s0).2.nextHandle shader) ++
        [GLCall.linkProgram ctxA.id
          (collectRealShaders ctxA (fun _ => none)
            [ShaderArg.src "V", ShaderArg.handle 42, ShaderArg.src "F"]
            0 s0).2.nextHandle] ∧
    (collectRealShaders ctxA (fun _ => none)
        [ShaderArg.src "V", ShaderArg.handle 42, ShaderArg.src "F"] 0 s0).1.length =
      ([ShaderArg.src "V", ShaderArg.handle 42,
        ShaderArg.src "F"].countP ShaderArg.isString) ∧
    (collectRealShaders ctxA (fun _ => none)
        [ShaderArg.src "V", ShaderArg.handle 42, ShaderArg.src "F"]
        0 s0).2.trace.filter GLCall.isAttachCall =
      s0.trace.filter GLCall.isAttachCall :=
  createProgram_attaches_compiled_sources ctxA (fun _ => none)
    [ShaderArg.src "V", ShaderArg.handle 42, ShaderArg.src "F"] s0 rfl

/-- C7: a color-marked `{r,g,b}` value, for a resolving uniform name,
dispatches through the float-vector call of exactly the uniform's
declared component count — `uniform3f(loc, r, g, b)` when the declared
arity is 3 (the trailing `1.0` argument expression is not consumed), and
`uniform4f(loc, r, g, b, 1.0)` when the declared arity is 4. -/
theorem setUniform_color_dispatch (p : WebGLProgram) (name : String)
    (r g b : Rat) (loc : Nat) (hloc : p.gl.uniformLoc name = some loc) :
    (p.gl.uniformLen loc = some 3 →
      p.setUniform name (UniformValue.color r g b) =
        .ok [UniformCall.uniform3f loc r g b]) ∧
    (p.gl.uniformLen loc = some 4 →
      p.setUniform name (UniformValue.color r g b) =
        .ok [UniformCall.uniform4f loc r g b 1]) := by
  constructor <;> intro h <;> simp [WebGLProgram.setUniform, hloc, h]

/-- C7, witness: a red color on a vec3-uniform program (`pA`) and on a
vec4-uniform program (`pB`). -/
theorem setUniform_color_dispatch_witness :
    pA.setUniform "color" (UniformValue.color 1 0 0) =
      .ok [UniformCall.uniform3f 0 1 0 0] ∧
    pB.setUniform "color" (UniformValue.color 1 0 0) =
      .ok [UniformCall.uniform4f 0 1 0 0 1] :=
  ⟨(setUniform_color_dispatch pA "color" 1 0 0 0 rfl).1 rfl,
   (setUniform_color_dispatch pB "color" 1 0 0 0 rfl).2 rfl⟩

/-- C8, counterexample: a typed float array (`Float32Array` of length 3)
for a resolving uniform name is *not* set via the arity-3 float-vector
call — it is not `instanceof Array`, carries no marker, and falls through
to the unsupported-value warning no-op. -/
theorem setUniform_typed_array_cex :
    pA.setUniform "color" (UniformValue.typedArr "Float32Array" [1, 2, 3]) =
      .ok [UniformCall.warnUnsupported "Float32Array"] ∧
    pA.setUniform "color" (UniformValue.typedArr "Float32Array" [1, 2, 3]) ≠
      .ok [UniformCall.uniformNfv 3 0 [1, 2, 3]] := by
  constructor
  · rfl
  · intro h
    rw [show pA.setUniform "color" (UniformValue.typedArr "Float32Array" [1, 2, 3]) =
        .ok [UniformCall.warnUnsupported "Float32Array"] from rfl] at h
    simp at h

/-- C8, amended: a *plain* array of length L ∈ {1,2,3,4}, for a resolving
uniform name, is set via the dynamically named float-vector call
`uniform<L>fv` with that array; typed float arrays do not take this path
(they reach the unsupported-value warning instead). -/
theorem setUniform_plain_array_dispatch (p : WebGLProgram) (name : String)
    (elems : List Rat) (loc : Nat) (hloc : p.gl.uniformLoc name = some loc)
    (h1 : 1 ≤ elems.length) (h4 : elems.length ≤ 4) :
    p.setUniform name (UniformValue.arr elems) =
      .ok [UniformCall.uniformNfv elems.length loc elems] := by
  simp [WebGLProgram.setUniform, hloc, h1, h4]

/-- C8, witness: a plain length-2 array dispatches as `uniform2fv`. -/
theorem setUniform_plain_array_dispatch_witness :
    pA.setUniform "color" (UniformValue.arr [1, 2]) =
      .ok [UniformCall.uniformNfv 2 0 [1, 2]] :=
  setUniform_plain_array_dispatch pA "color" [1, 2] 0 rfl (by decide) (by decide)

/-- C9: a plain array whose length is 0 or exceeds 4, for a resolving
uniform name, makes `setUniform` raise the JS `TypeError` for the
non-existent dynamically named `gl.uniform<len>fv` — it does not take the
documented unsupported-shape warning path. -/
theorem setUniform_bad_length_type_error (p : WebGLProgram) (name : String)
    (elems : List Rat) (loc : Nat) (hloc : p.gl.uniformLoc name = some loc)
    (hlen : elems.length = 0 ∨ 4 < elems.length) :
    p.setUniform name (UniformValue.arr elems) =
      .error (GLError.typeError ("uniform" ++ toString elems.length ++ "fv")) := by
  have hneg : ¬(1 ≤ elems.length ∧ elems.length ≤ 4) := by
    rcases hlen with h | h <;> omega
  simp [WebGLProgram.setUniform, hloc, hneg]

/-- C9, witness: the empty array trips over `uniform0fv`, a length-5
array over `uniform5fv`. -/
theorem setUniform_bad_length_type_error_witness :
    pA.setUniform "color" (UniformValue.arr []) =
      .error (GLError.typeError "uniform0fv") ∧
    pA.setUniform "color" (UniformValue.arr [1, 2, 3, 4, 5]) =
      .error (GLError.typeError "uniform5fv") :=
  ⟨setUniform_bad_length_type_error pA "color" [] 0 rfl (Or.inl rfl),
   setUniform_bad_length_type_error pA "color" [1, 2, 3, 4, 5] 0 rfl
     (Or.inr (by decide))⟩
